import Mathlib

/-!
Verification development for the reel-downloader extraction engine
(`src/instagram-api.ts`).  The definitions below are a shallow embedding of
the TypeScript source: JS strings become `String`, JS regular-expression
matching and `JSON.parse` become oracle functions supplied through an
environment record (so every theorem quantifies over all possible match
outcomes), JSON values become the inductive `JVal`, and JS property access
(including its `TypeError` on reading a property of `null`/`undefined`)
becomes an `Except JsErr` computation.
-/

namespace IG

/-! ## String helpers (JS semantics on `List Char`) -/

/-- Boolean contiguous-segment test (`pat` occurs inside `s`). -/
def isSegOf (pat : List Char) : List Char → Bool
  | [] => pat.isEmpty
  | c :: rest => pat.isPrefixOf (c :: rest) || isSegOf pat rest

/-- JS `s.includes(pat)`: substring containment. -/
def strIncludes (s pat : String) : Bool :=
  isSegOf pat.data s.data

/-- JS `s.startsWith(pat)`. -/
def strStarts (s pat : String) : Bool :=
  pat.data.isPrefixOf s.data

/-- JS `s.endsWith("/")` specialised to one character. -/
def strEndsWithChar (s : String) (c : Char) : Bool :=
  match s.data.getLast? with
  | some d => d = c
  | none => false

/-- JS `s.slice(0, -1)`: drop the final character. -/
def strDropLast (s : String) : String :=
  ⟨s.data.dropLast⟩

/-- JS `s.substring(0, n)` (first `n` characters). -/
def strTake (s : String) (n : Nat) : String :=
  ⟨s.data.take n⟩

/-- Whitespace test used by `strTrim`. -/
def isWs (c : Char) : Bool :=
  c = ' ' ∨ c = '\t' ∨ c = '\n' ∨ c = '\r'

/-- JS `s.trim()`. -/
def strTrim (s : String) : String :=
  ⟨((s.data.dropWhile isWs).reverse.dropWhile isWs).reverse⟩

/-- JS `s.split('/')` (split on a single character, keeping empty pieces). -/
def splitSlashAux : List Char → List Char → List (List Char)
  | [], acc => [acc.reverse]
  | c :: rest, acc =>
    if c = '/' then acc.reverse :: splitSlashAux rest [] else splitSlashAux rest (c :: acc)

def splitSlash (s : String) : List String :=
  (splitSlashAux s.data []).map (fun l => ⟨l⟩)

/-! ## Global literal replacement (JS `String.replace` with a `/.../g`
literal pattern).  The recursion is driven by an explicit fuel argument
equal to the input length so that the definition is structural and
kernel-evaluable. -/

def repAllF (pat rep : List Char) : Nat → List Char → List Char
  | _, [] => []
  | 0, s => s
  | fuel + 1, c :: rest =>
    if pat ≠ [] ∧ pat.isPrefixOf (c :: rest) then
      rep ++ repAllF pat rep fuel ((c :: rest).drop pat.length)
    else
      c :: repAllF pat rep fuel rest

def repAll (pat rep s : List Char) : List Char :=
  repAllF pat rep s.length s

/-- JS `s.replace(/pat/g, rep)` for a literal pattern. -/
def jsReplace (s pat rep : String) : String :=
  ⟨repAll pat.data rep.data s.data⟩

/-- De-escape chain of the direct-video-URL fallback
(`instagram-api.ts` lines 360-363):
`&`→`&`, `=`→`=`, `\/`→`/`, `\"`→`"`. -/
def deEscapeDirect (s : String) : String :=
  jsReplace (jsReplace (jsReplace (jsReplace s "\\u0026" "&") "\\u003D" "=") "\\/" "/") "\\\"" "\""

/-- De-escape chain of the individual-field extraction
(lines 314-319): as `deEscapeDirect` plus `%3D`→`=` (applied twice
in the source; a second identical global replace is a no-op only when the
first leaves no occurrence, so both are modelled). -/
def deEscapeIndividual (s : String) : String :=
  jsReplace (jsReplace (deEscapeDirect s) "\\u00253D" "=") "\\u00253D" "="

/-- De-escape chain of Structure 6 (lines 565-570):
`%`→`%`, `/`→`/`, `:`→`:`, `?`→`?`,
`=`→`=`, `&`→`&`. -/
def deEscapeVideo (s : String) : String :=
  jsReplace (jsReplace (jsReplace (jsReplace (jsReplace (jsReplace s
    "\\u0025" "%") "\\u002F" "/") "\\u003A" ":") "\\u003F" "?") "\\u003D" "=") "\\u0026" "&"

/-! ## Properties of global replacement -/

theorem isSegOf_iff (pat : List Char) : ∀ l : List Char, isSegOf pat l = true ↔ pat <:+: l := by
  intro l
  induction l with
  | nil => simp [isSegOf, List.isEmpty_iff, List.infix_nil]
  | cons c rest ih =>
    simp [isSegOf, List.isPrefixOf_iff_prefix, ih, List.infix_cons_iff]

theorem repAllF_zero (pat rep s : List Char) : repAllF pat rep 0 s = s := by
  cases s <;> rfl

theorem repAllF_eq_self (pat rep : List Char) :
    ∀ (fuel : Nat) (s : List Char), ¬ pat <:+: s → repAllF pat rep fuel s = s := by
  intro fuel
  induction fuel with
  | zero => intro s _; exact repAllF_zero pat rep s
  | succ n ih =>
    intro s h
    match s with
    | [] => rfl
    | c :: rest =>
      rw [repAllF, if_neg, ih rest (fun hi => h (List.infix_cons_iff.mpr (Or.inr hi)))]
      rintro ⟨-, hp⟩
      exact h (List.infix_cons_iff.mpr (Or.inl (List.isPrefixOf_iff_prefix.mp hp)))

theorem repAllF_prefix_pullback (pat : List Char) (c : Char) :
    ∀ (fuel : Nat) (s p : List Char), c ∉ p → p <+: repAllF pat [c] fuel s → p <+: s := by
  intro fuel
  induction fuel with
  | zero =>
    intro s p _ h
    rwa [repAllF_zero] at h
  | succ n ih =>
    intro s p hc h
    match s with
    | [] =>
      rw [show repAllF pat [c] (n + 1) [] = [] from rfl] at h
      rw [List.prefix_nil.mp h]
    | a :: rest =>
      rw [repAllF] at h
      by_cases hg : pat ≠ [] ∧ pat.isPrefixOf (a :: rest)
      · rw [if_pos hg] at h
        match p, h with
        | [], _ => exact List.nil_prefix
        | d :: p', h =>
          rw [show ([c] ++ repAllF pat [c] n ((a :: rest).drop pat.length)) =
              c :: repAllF pat [c] n ((a :: rest).drop pat.length) from rfl] at h
          rcases List.cons_prefix_cons.mp h with ⟨hdc, -⟩
          exact absurd (hdc ▸ List.mem_cons_self d p') hc
      · rw [if_neg hg] at h
        match p, h with
        | [], _ => exact List.nil_prefix
        | d :: p', h =>
          rcases List.cons_prefix_cons.mp h with ⟨hda, hp'⟩
          have := ih rest p' (fun hm => hc (List.mem_cons_of_mem d hm)) hp'
          exact hda ▸ List.cons_prefix_cons.mpr ⟨rfl, this⟩

theorem repAllF_infix_pullback (pat : List Char) (c : Char) :
    ∀ (fuel : Nat) (s p : List Char), c ∉ p → p <:+: repAllF pat [c] fuel s → p <:+: s := by
  intro fuel
  induction fuel with
  | zero =>
    intro s p _ h
    rwa [repAllF_zero] at h
  | succ n ih =>
    intro s p hc h
    match s with
    | [] =>
      rw [show repAllF pat [c] (n + 1) [] = [] from rfl] at h
      rw [List.infix_nil.mp h]
    | a :: rest =>
      rw [repAllF] at h
      by_cases hg : pat ≠ [] ∧ pat.isPrefixOf (a :: rest)
      · rw [if_pos hg] at h
        rw [show ([c] ++ repAllF pat [c] n ((a :: rest).drop pat.length)) =
            c :: repAllF pat [c] n ((a :: rest).drop pat.length) from rfl] at h
        rcases List.infix_cons_iff.mp h with hpre | hinf
        · match p, hpre with
          | [], _ => exact List.nil_infix
          | d :: p', hpre =>
            rcases List.cons_prefix_cons.mp hpre with ⟨hdc, -⟩
            exact absurd (hdc ▸ List.mem_cons_self d p') hc
        · have h1 := ih ((a :: rest).drop pat.length) p hc hinf
          exact h1.trans (List.drop_suffix pat.length (a :: rest)).isInfix
      · rw [if_neg hg] at h
        rcases List.infix_cons_iff.mp h with hpre | hinf
        · match p, hpre with
          | [], _ => exact List.nil_infix
          | d :: p', hpre =>
            rcases List.cons_prefix_cons.mp hpre with ⟨hda, hp'⟩
            have := repAllF_prefix_pullback pat c n rest p'
              (fun hm => hc (List.mem_cons_of_mem d hm)) hp'
            exact List.infix_cons_iff.mpr
              (Or.inl (hda ▸ List.cons_prefix_cons.mpr ⟨rfl, this⟩))
        · exact List.infix_cons_iff.mpr (Or.inr (ih rest p hc hinf))

theorem repAllF_not_infix (pat : List Char) (c : Char) (hc : c ∉ pat) (hne : pat ≠ []) :
    ∀ (fuel : Nat) (s : List Char), s.length ≤ fuel → ¬ pat <:+: repAllF pat [c] fuel s := by
  intro fuel
  induction fuel with
  | zero =>
    intro s hl h
    rw [List.length_eq_zero.mp (Nat.le_zero.mp hl), repAllF_zero] at h
    exact hne (List.infix_nil.mp h)
  | succ n ih =>
    intro s hl h
    match s with
    | [] =>
      rw [show repAllF pat [c] (n + 1) [] = [] from rfl] at h
      exact hne (List.infix_nil.mp h)
    | a :: rest =>
      rw [repAllF] at h
      by_cases hg : pat ≠ [] ∧ pat.isPrefixOf (a :: rest)
      · rw [if_pos hg] at h
        rw [show ([c] ++ repAllF pat [c] n ((a :: rest).drop pat.length)) =
            c :: repAllF pat [c] n ((a :: rest).drop pat.length) from rfl] at h
        rcases List.infix_cons_iff.mp h with hpre | hinf
        · match pat, hpre, hne, hc with
          | d :: p', hpre, hne, hc =>
            rcases List.cons_prefix_cons.mp hpre with ⟨hdc, -⟩
            exact absurd (hdc ▸ List.mem_cons_self d p') hc
        · have hlen : ((a :: rest).drop pat.length).length ≤ n := by
            have h1 : pat.length ≥ 1 := by
              match pat, hne with
              | d :: p', _ => exact Nat.succ_le_succ (Nat.zero_le _)
            simp only [List.length_cons] at hl
            simp only [List.length_drop, List.length_cons]
            omega
          exact ih ((a :: rest).drop pat.length) hlen hinf
      · rw [if_neg hg] at h
        rcases List.infix_cons_iff.mp h with hpre | hinf
        · match pat, hpre, hne, hc, hg with
          | d :: p', hpre, hne, hc, hg =>
            rcases List.cons_prefix_cons.mp hpre with ⟨hda, hp'⟩
            have hp2 := repAllF_prefix_pullback (d :: p') c n rest p'
              (fun hm => hc (List.mem_cons_of_mem d hm)) hp'
            exact hg ⟨hne, List.isPrefixOf_iff_prefix.mpr
              (hda ▸ List.cons_prefix_cons.mpr ⟨rfl, hp2⟩)⟩
        · exact ih rest (Nat.le_of_succ_le_succ hl) hinf

theorem repAllF_ne_nil (pat rep : List Char) (hr : rep ≠ []) :
    ∀ (fuel : Nat) (s : List Char), s ≠ [] → repAllF pat rep fuel s ≠ [] := by
  intro fuel s hs
  match fuel, s with
  | 0, [] => exact absurd rfl hs
  | 0, c :: rest => exact hs
  | n + 1, [] => exact absurd rfl hs
  | n + 1, c :: rest =>
    rw [repAllF]
    by_cases hg : pat ≠ [] ∧ pat.isPrefixOf (c :: rest)
    · rw [if_pos hg]
      intro hcon
      exact hr (List.append_eq_nil.mp hcon).1
    · rw [if_neg hg]
      exact List.cons_ne_nil _ _

/-! String-level corollaries, used with single-character replacements. -/

theorem jsReplace_eq_self (s pat rep : String) (h : ¬ pat.data <:+: s.data) :
    jsReplace s pat rep = s := by
  show String.mk (repAll pat.data rep.data s.data) = s
  rw [repAll, repAllF_eq_self pat.data rep.data s.data.length s.data h]

theorem jsReplace_infix_pullback (s pat rep : String) (c : Char) (hr : rep.data = [c])
    (p : List Char) (hc : c ∉ p) (h : p <:+: (jsReplace s pat rep).data) : p <:+: s.data := by
  rw [show (jsReplace s pat rep).data = repAll pat.data rep.data s.data from rfl, repAll, hr] at h
  exact repAllF_infix_pullback pat.data c s.data.length s.data p hc h

theorem jsReplace_not_infix (s pat rep : String) (c : Char) (hr : rep.data = [c])
    (hc : c ∉ pat.data) (hne : pat.data ≠ []) : ¬ pat.data <:+: (jsReplace s pat rep).data := by
  rw [show (jsReplace s pat rep).data = repAll pat.data rep.data s.data from rfl, repAll, hr]
  exact repAllF_not_infix pat.data c hc hne s.data.length s.data (Nat.le_refl _)

theorem jsReplace_ne_empty (s pat rep : String) (hr : rep.data ≠ []) (hs : s ≠ "") :
    jsReplace s pat rep ≠ "" := by
  intro h
  have hd : (jsReplace s pat rep).data = [] := by rw [h]
  rw [show (jsReplace s pat rep).data = repAll pat.data rep.data s.data from rfl, repAll] at hd
  have hsd : s.data ≠ [] := by
    intro h2
    apply hs
    cases s
    simp_all
  exact repAllF_ne_nil pat.data rep.data hr s.data.length s.data hsd hd

theorem deEscapeDirect_ne_empty (s : String) (hs : s ≠ "") : deEscapeDirect s ≠ "" := by
  unfold deEscapeDirect
  apply jsReplace_ne_empty _ _ _ (by decide)
  apply jsReplace_ne_empty _ _ _ (by decide)
  apply jsReplace_ne_empty _ _ _ (by decide)
  exact jsReplace_ne_empty _ _ _ (by decide) hs

/-! No occurrence of any of the six escape sequences survives `deEscapeVideo`:
replacement characters (%, /, :, ?, =, &) never occur inside any of the six
patterns, so a surviving occurrence would pull back step by step to an
occurrence left behind by that pattern's own global replacement, which is
impossible. -/

theorem dev_no1 (s : String) : ¬ ("\\u0025".data <:+: (deEscapeVideo s).data) := by
  intro h
  unfold deEscapeVideo at h
  have h5 := jsReplace_infix_pullback _ "\\u0026" "&" '&' rfl _ (by decide) h
  have h4 := jsReplace_infix_pullback _ "\\u003D" "=" '=' rfl _ (by decide) h5
  have h3 := jsReplace_infix_pullback _ "\\u003F" "?" '?' rfl _ (by decide) h4
  have h2 := jsReplace_infix_pullback _ "\\u003A" ":" ':' rfl _ (by decide) h3
  have h1 := jsReplace_infix_pullback _ "\\u002F" "/" '/' rfl _ (by decide) h2
  exact jsReplace_not_infix _ "\\u0025" "%" '%' rfl (by decide) (by decide) h1

theorem dev_no2 (s : String) : ¬ ("\\u002F".data <:+: (deEscapeVideo s).data) := by
  intro h
  unfold deEscapeVideo at h
  have h5 := jsReplace_infix_pullback _ "\\u0026" "&" '&' rfl _ (by decide) h
  have h4 := jsReplace_infix_pullback _ "\\u003D" "=" '=' rfl _ (by decide) h5
  have h3 := jsReplace_infix_pullback _ "\\u003F" "?" '?' rfl _ (by decide) h4
  have h2 := jsReplace_infix_pullback _ "\\u003A" ":" ':' rfl _ (by decide) h3
  exact jsReplace_not_infix _ "\\u002F" "/" '/' rfl (by decide) (by decide) h2

theorem dev_no3 (s : String) : ¬ ("\\u003A".data <:+: (deEscapeVideo s).data) := by
  intro h
  unfold deEscapeVideo at h
  have h5 := jsReplace_infix_pullback _ "\\u0026" "&" '&' rfl _ (by decide) h
  have h4 := jsReplace_infix_pullback _ "\\u003D" "=" '=' rfl _ (by decide) h5
  have h3 := jsReplace_infix_pullback _ "\\u003F" "?" '?' rfl _ (by decide) h4
  exact jsReplace_not_infix _ "\\u003A" ":" ':' rfl (by decide) (by decide) h3

theorem dev_no4 (s : String) : ¬ ("\\u003F".data <:+: (deEscapeVideo s).data) := by
  intro h
  unfold deEscapeVideo at h
  have h5 := jsReplace_infix_pullback _ "\\u0026" "&" '&' rfl _ (by decide) h
  have h4 := jsReplace_infix_pullback _ "\\u003D" "=" '=' rfl _ (by decide) h5
  exact jsReplace_not_infix _ "\\u003F" "?" '?' rfl (by decide) (by decide) h4

theorem dev_no5 (s : String) : ¬ ("\\u003D".data <:+: (deEscapeVideo s).data) := by
  intro h
  unfold deEscapeVideo at h
  have h5 := jsReplace_infix_pullback _ "\\u0026" "&" '&' rfl _ (by decide) h
  exact jsReplace_not_infix _ "\\u003D" "=" '=' rfl (by decide) (by decide) h5

theorem dev_no6 (s : String) : ¬ ("\\u0026".data <:+: (deEscapeVideo s).data) := by
  intro h
  unfold deEscapeVideo at h
  exact jsReplace_not_infix _ "\\u0026" "&" '&' rfl (by decide) (by decide) h

theorem deEscapeVideo_idem (s : String) : deEscapeVideo (deEscapeVideo s) = deEscapeVideo s := by
  conv_lhs => rw [deEscapeVideo]
  rw [jsReplace_eq_self _ _ _ (dev_no1 s), jsReplace_eq_self _ _ _ (dev_no2 s),
    jsReplace_eq_self _ _ _ (dev_no3 s), jsReplace_eq_self _ _ _ (dev_no4 s),
    jsReplace_eq_self _ _ _ (dev_no5 s), jsReplace_eq_self _ _ _ (dev_no6 s)]

/-! ## URL Normalizer (`extractShortcode`, lines 57-92)

`new URL(url)` is modelled by `parseUrl`, a parser for plain
`http(s)://host/path?query#frag` URLs that agrees with the WHATWG parser on
such inputs (host = authority up to the first `/`, `?` or `#`; pathname =
from that `/` up to `?` or `#`, defaulting to `/`).  A URL the parser
rejects corresponds to `new URL` throwing a `TypeError`, which the source
re-throws unchanged (`error instanceof Error` is true for `TypeError`). -/

structure UrlParts where
  host : String
  pathname : String
deriving DecidableEq, Repr

def parseUrl (url : String) : Option UrlParts :=
  let afterScheme : Option (List Char) :=
    if strStarts url "https://" then some (url.data.drop 8)
    else if strStarts url "http://" then some (url.data.drop 7)
    else none
  afterScheme.map fun rest =>
    let hostChars := rest.takeWhile (fun c => ¬ (c = '/' ∨ c = '?' ∨ c = '#'))
    let tail := rest.drop hostChars.length
    let pathChars := tail.takeWhile (fun c => ¬ (c = '?' ∨ c = '#'))
    ⟨⟨hostChars⟩, if pathChars = [] then "/" else ⟨pathChars⟩⟩

inductive UrlError where
  /-- line 61: the string does not contain the substring checked by the code. -/
  | invalidDomain (url : String)
  /-- line 85: the path shape was not recognized. -/
  | unrecognizedUrlShape (url : String)
  /-- `new URL(url)` threw; the TypeError is re-thrown by the catch block. -/
  | invalidUrl (url : String)
deriving DecidableEq, Repr

/-- Lines 68-71: strip one trailing slash, split on `/`. -/
def cleanSegments (path : String) : List String :=
  splitSlash (if strEndsWithChar path '/' then strDropLast path else path)

/-- `InstagramAPI.extractShortcode` (lines 57-92). -/
def extractShortcode (url : String) : Except UrlError String :=
  if ¬ strIncludes url "instagram.com" then .error (.invalidDomain url)
  else
    match parseUrl url with
    | none => .error (.invalidUrl url)
    | some u =>
      let segments := cleanSegments u.pathname
      if segments.length ≥ 3 ∧
          ["p", "reel", "tv"].contains (segments.getD (segments.length - 2) "") then
        .ok (segments.getD (segments.length - 1) "")
      else
        .error (.unrecognizedUrlShape url)

/-! ## JS values and property access

`JVal` models the JSON-ish values the extraction cascade manipulates.
`jget`/`jidx` model JS property and index access: reading a property of
`undefined` or `null` throws a `TypeError`; any other base yields the
property value or `undefined`.  `length` works on arrays and strings.
Numeric values are modelled as `Int` and metadata strings read out of a
`JVal` collapse non-strings to `""`/their decimal rendering (the fixtures
of interest only carry strings and numbers in those positions). -/

inductive JVal where
  | undefV
  | null
  | bool (b : Bool)
  | num (n : Int)
  | str (s : String)
  | arr (xs : List JVal)
  | obj (fields : List (String × JVal))

inductive JsErr where
  | typeErr (msg : String)
deriving DecidableEq, Repr

/-- JS truthiness. -/
def truthy : JVal → Bool
  | .undefV => false
  | .null => false
  | .bool b => b
  | .num n => n ≠ 0
  | .str s => s ≠ ""
  | .arr _ => true
  | .obj _ => true

/-- Nullish test (`undefined` or `null`), used by optional chaining. -/
def nullish : JVal → Bool
  | .undefV => true
  | .null => true
  | _ => false

def lookupField : List (String × JVal) → String → Option JVal
  | [], _ => none
  | (k, v) :: rest, key => if k = key then some v else lookupField rest key

/-- JS property read `v.k`. -/
def jget : JVal → String → Except JsErr JVal
  | .undefV, k => .error (.typeErr ("cannot read properties of undefined: " ++ k))
  | .null, k => .error (.typeErr ("cannot read properties of null: " ++ k))
  | .obj fs, k => .ok ((lookupField fs k).getD .undefV)
  | .arr xs, k => .ok (if k = "length" then .num xs.length else .undefV)
  | .str s, k => .ok (if k = "length" then .num s.length else .undefV)
  | _, _ => .ok .undefV

/-- JS index read `v[i]`. -/
def jidx : JVal → Nat → Except JsErr JVal
  | .undefV, _ => .error (.typeErr "cannot index undefined")
  | .null, _ => .error (.typeErr "cannot index null")
  | .arr xs, i => .ok (xs.getD i .undefV)
  | .str s, i =>
    .ok (match s.data.get? i with
      | some c => .str ⟨[c]⟩
      | none => .undefV)
  | _, _ => .ok .undefV

/-- Property read on a value known (or assumed) non-nullish; total. -/
def jgetD (v : JVal) (k : String) : JVal :=
  match jget v k with
  | .ok w => w
  | .error _ => .undefV

/-- Coercion of a `JVal` to the string stored in a string-typed slot. -/
def jvalToStr : JVal → String
  | .str s => s
  | .num n => toString n
  | _ => ""

/-- Coercion of a `JVal` to the number stored in a count slot. -/
def jvalToInt : JVal → Int
  | .num n => n
  | _ => 0

/-- JS `v || ''` for string slots. -/
def strOrEmpty (v : JVal) : String :=
  if truthy v then jvalToStr v else ""

/-- JS `a || b` for string slots (`media.display_url || media.thumbnail_src`). -/
def strOr2 (a b : JVal) : String :=
  if truthy a then jvalToStr a else jvalToStr b

/-- JS `v || 0` for count slots. -/
def intOrZero (v : JVal) : Int :=
  if truthy v then jvalToInt v else 0

/-- JS `a || b || 0` for count slots (`view_count || play_count || 0`). -/
def intOr2 (a b : JVal) : Int :=
  if truthy a then jvalToInt a else if truthy b then jvalToInt b else 0

/-- `Object.keys`. -/
def jkeys : JVal → List String
  | .obj fs => fs.map (fun f => f.1)
  | _ => []

/-- Strict equality against a string literal (`item[0] === 'PostPage'`). -/
def jvalEqStr : JVal → String → Bool
  | .str t, s => t = s
  | _, _ => false

/-! ## Page bodies, patterns and the oracle environment

`RespData` is `response.data`: a markup/JSON string, or the object axios
already parsed from a JSON response.  Every regular expression literal of
the source is a constructor of `Pat`; `Env.matchRe p s` is the oracle
giving capture group 1 of `s.match(p)` (`none` = no match), and
`Env.jsonParse` is `JSON.parse` (`none` = it threw).  Theorems quantify
over all oracles, hence over all possible regex/parse outcomes. -/

inductive RespData where
  | str (s : String)
  | json (j : JVal)

inductive Pat where
  -- jsonDataPatterns (lines 216-228), in source order
  | dataSjs        -- script type application/json data-sjs
  | addlData       -- window.__additionalDataLoaded
  | sharedData     -- window._sharedData
  | apolloState    -- window.__APOLLO_STATE__
  | initialData    -- window.__INITIAL_DATA__
  | itemsStart     -- handled textually, see tryJsonPats
  | graphqlStart   -- last-resort graphql object sniff (has no capture group)
  -- directVideoUrlPatterns (lines 231-237), in source order
  | dv1 | dv2 | dv3 | dv4 | dv5
  -- individual-field extraction regexes (lines 303-308)
  | fVideoUrl | fLike | fComment | fView | fUsername | fCaption
  -- Structure 6 videoPatterns (lines 553-560), in source order
  | vp1 | vp2 | vp3 | vp4 | vp5 | vp6
  -- PolarisPostRootQueryRelayPreloader fragment (line 579)
  | preloader
deriving DecidableEq, Repr

/-- Diagnostic label for the extracted-json debug file name
(`pattern.toString()` in the source; shortened here, the sink owns naming). -/
def patLabel : Pat → String
  | .dataSjs => "script-data-sjs"
  | .addlData => "additional-data-loaded"
  | .sharedData => "shared-data"
  | .apolloState => "apollo-state"
  | .initialData => "initial-data"
  | .itemsStart => "direct-json"
  | .graphqlStart => "graphql-sniff"
  | _ => "other"

structure Response where
  status : Nat
  headers : List (String × String)
  body : RespData

inductive FetchOutcome where
  /-- axios threw before producing a response (network error, timeout). -/
  | netErr
  /-- axios produced a response with this status (it throws on non-2xx,
  which the fetch loop catches and skips). -/
  | resp (r : Response)

structure Env where
  /-- Outcome of the i-th fetch attempt (i = 0..3). -/
  fetch : Nat → FetchOutcome
  /-- Capture group 1 of `s.match(p)`. -/
  matchRe : Pat → String → Option String
  /-- `JSON.parse` (`none` when it throws). -/
  jsonParse : String → Option JVal

/-! ## Result assembly state

The mutable locals of `getMediaInfo` lines 400-407, all initialised
empty/zero. -/

structure MediaState where
  videoUrl : String
  fileName : String
  thumbnailUrl : String
  caption : String
  username : String
  likes : Int
  comments : Int
  views : Int
deriving DecidableEq, Repr

def initState : MediaState :=
  ⟨"", "", "", "", "", 0, 0, 0⟩

/-- The returned `InstagramMediaInfo` (lines 612-622). -/
structure MediaInfo where
  videoUrl : String
  fileName : String
  thumbnailUrl : String
  caption : String
  username : String
  likes : Int
  comments : Int
  views : Int
  originalUrl : String
deriving DecidableEq, Repr

/-! ## Shared field-path readers -/

/-- `media.edge_media_to_caption?.edges[0]?.node?.text || ''`
(lines 448, 481, 522, 544).  Note `edges[0]` is a plain index access:
if `edge_media_to_caption` is non-nullish but `edges` is absent, JS
throws. -/
def captionChain (media : JVal) : Except JsErr String := do
  let e ← jget media "edge_media_to_caption"
  if nullish e then
    return ""
  else
    let ed ← jget e "edges"
    let e0 ← jidx ed 0
    if nullish e0 then
      return ""
    else
      let nd ← jget e0 "node"
      if nullish nd then
        return ""
      else
        let t ← jget nd "text"
        return strOrEmpty t

/-- `media.owner?.username || ''`. -/
def ownerUsername (media : JVal) : Except JsErr String := do
  let o ← jget media "owner"
  if nullish o then
    return ""
  else
    let u ← jget o "username"
    return strOrEmpty u

/-- `media.X?.count || 0` (like / comment edges). -/
def edgeCount (media : JVal) (field : String) : Except JsErr Int := do
  let e ← jget media field
  if nullish e then
    return 0
  else
    let c ← jget e "count"
    return intOrZero c

/-- `media.user?.username || ''`. -/
def userUsername (media : JVal) : Except JsErr String := do
  let u ← jget media "user"
  if nullish u then
    return ""
  else
    let n ← jget u "username"
    return strOrEmpty n

/-- `media.caption?.text || ''`. -/
def captionText (media : JVal) : Except JsErr String := do
  let c ← jget media "caption"
  if nullish c then
    return ""
  else
    let t ← jget c "text"
    return strOrEmpty t

/-- `media.image_versions2?.candidates[0]?.url || ''` (line 462, 496):
`candidates` is indexed without a guard, so JS throws when
`image_versions2` is non-nullish but has no `candidates`. -/
def thumbCandidates (media : JVal) : Except JsErr String := do
  let iv ← jget media "image_versions2"
  if nullish iv then
    return ""
  else
    let cand ← jget iv "candidates"
    let c0 ← jidx cand 0
    if nullish c0 then
      return ""
    else
      let u ← jget c0 "url"
      return strOrEmpty u

/-- `media.image_versions2?.candidates?.[0]?.url || ''` (line 422; here the
index is optional too, so this variant never throws past the first get). -/
def thumbCandidatesOpt (media : JVal) : Except JsErr String := do
  let iv ← jget media "image_versions2"
  if nullish iv then
    return ""
  else
    let cand ← jget iv "candidates"
    if nullish cand then
      return ""
    else
      let c0 ← jidx cand 0
      if nullish c0 then
        return ""
      else
        let u ← jget c0 "url"
        return strOrEmpty u

/-! ## The extraction cascade (lines 409-595) -/

/-- Direct-video-URL stub handling (lines 410-431): if the assembled
`jsonData` carries `directVideoUrl`, use it, plus the optional attached
`metadata` object. -/
def directStub (sc : String) (jd : JVal) (st : MediaState) : Except JsErr MediaState := do
  let dv ← jget jd "directVideoUrl"
  if ¬ truthy dv then
    return st
  else
    let st := { st with videoUrl := jvalToStr dv, fileName := sc ++ ".mp4" }
    let md ← jget jd "metadata"
    if ¬ truthy md then
      return st
    else
      let username ← userUsername md
      let caption ← captionText md
      let likes ← jget md "like_count"
      let comments ← jget md "comment_count"
      let vc ← jget md "view_count"
      let pc ← jget md "play_count"
      let thumb ← thumbCandidatesOpt md
      return { st with
        username := username
        caption := caption
        likes := intOrZero likes
        comments := intOrZero comments
        views := intOr2 vc pc
        thumbnailUrl := thumb }

/-- Fields written by the graphql `shortcode_media` layout with counts
(Structure 1 format 1.1 and Structure 2; lines 444-452 and 477-485). -/
def graphqlAssign (sc : String) (media : JVal) (st : MediaState) : Except JsErr MediaState := do
  let vu ← jget media "video_url"
  let du ← jget media "display_url"
  let ts ← jget media "thumbnail_src"
  let cap ← captionChain media
  let un ← ownerUsername media
  let lk ← edgeCount media "edge_media_preview_like"
  let cm ← edgeCount media "edge_media_to_comment"
  let vv ← jget media "video_view_count"
  return { st with
    videoUrl := jvalToStr vu
    fileName := sc ++ ".mp4"
    thumbnailUrl := strOr2 du ts
    caption := cap
    username := un
    likes := lk
    comments := cm
    views := intOrZero vv }

/-- Fields written by the `items[0]`/`video_versions` layout
(Structure 1 format 1.2 and Structure 3; lines 459-467 and 493-501). -/
def itemsAssign (sc : String) (media : JVal) (st : MediaState) : Except JsErr MediaState := do
  let vv ← jget media "video_versions"
  let v0 ← jidx vv 0
  let vu ← jget v0 "url"
  let thumb ← thumbCandidates media
  let cap ← captionText media
  let un ← userUsername media
  let lk ← jget media "like_count"
  let cm ← jget media "comment_count"
  let vc ← jget media "view_count"
  let pc ← jget media "play_count"
  return { st with
    videoUrl := jvalToStr vu
    fileName := sc ++ ".mp4"
    thumbnailUrl := thumb
    caption := cap
    username := un
    likes := intOrZero lk
    comments := intOrZero cm
    views := intOr2 vc pc }

/-- Predicate of the `find` callback at lines 435-438:
`item[0] === 'PostPage' || (Array.isArray(item) && item.some(s => s && s.shortcode === sc))`. -/
def postPagePred (sc : String) (item : JVal) : Except JsErr Bool := do
  let e0 ← jidx item 0
  if jvalEqStr e0 "PostPage" then
    return true
  else
    match item with
    | .arr xs => return xs.any (fun sub => truthy sub && jvalEqStr (jgetD sub "shortcode") sc)
    | _ => return false

def findPostPage (sc : String) : List JVal → Except JsErr (Option JVal)
  | [] => .ok none
  | item :: rest => do
    let hit ← postPagePred sc item
    if hit then return (some item) else findPostPage sc rest

/-- `media.is_video && media.video_url` (truthiness of both). -/
def isVideoWithUrl (media : JVal) : Except JsErr Bool := do
  let isv ← jget media "is_video"
  if ¬ truthy isv then
    return false
  else
    let vu ← jget media "video_url"
    return truthy vu

/-- Structure 1: PostPage format (lines 434-472).  `jsonData.require` must
be an array for `.find` to exist; a truthy non-array raises a TypeError in
JS, modelled by the error branch. -/
def struct1 (sc : String) (jd : JVal) (st : MediaState) : Except JsErr MediaState := do
  if st.videoUrl ≠ "" then
    return st
  else
    let req ← jget jd "require"
    if ¬ truthy req then
      return st
    else
      match req with
      | .arr xs => do
        let found ← findPostPage sc xs
        match found with
        | none => return st
        | some mediaData => do
          let m1 ← jidx mediaData 1
          -- `mediaData[1] && mediaData[1].graphql && mediaData[1].graphql.shortcode_media`
          let c1 : Option JVal ←
            if ¬ truthy m1 then pure none
            else do
              let g ← jget m1 "graphql"
              if ¬ truthy g then pure none
              else do
                let scm ← jget g "shortcode_media"
                pure (if truthy scm then some scm else none)
          match c1 with
          | some media => do
            -- format 1.1
            let ok ← isVideoWithUrl media
            if ok then graphqlAssign sc media st else return st
          | none => do
            -- format 1.2: `mediaData[1] && mediaData[1].items && mediaData[1].items[0]`
            if ¬ truthy m1 then
              return st
            else
              let items ← jget m1 "items"
              if ¬ truthy items then
                return st
              else
                let i0 ← jidx items 0
                if ¬ truthy i0 then
                  return st
                else
                  let vv ← jget i0 "video_versions"
                  let hasVv ←
                    if ¬ truthy vv then pure false
                    else do
                      let len ← jget vv "length"
                      pure (decide (jvalToInt len > 0))
                  if hasVv then itemsAssign sc i0 st else return st
      | _ => .error (.typeErr "jsonData.require.find is not a function")

/-- Structure 2: SharedData format (lines 475-488). -/
def struct2 (sc : String) (jd : JVal) (st : MediaState) : Except JsErr MediaState := do
  if st.videoUrl ≠ "" then
    return st
  else
    let ed ← jget jd "entry_data"
    if ¬ truthy ed then
      return st
    else
      let pp ← jget ed "PostPage"
      if ¬ truthy pp then
        return st
      else
        -- `jsonData.entry_data.PostPage[0]?.graphql?.shortcode_media`
        let p0 ← jidx pp 0
        let media ←
          if nullish p0 then pure JVal.undefV
          else do
            let g ← jget p0 "graphql"
            if nullish g then pure JVal.undefV else jget g "shortcode_media"
        if ¬ truthy media then
          return st
        else
          let ok ← isVideoWithUrl media
          if ok then graphqlAssign sc media st else return st

/-- Structure 3: direct media format (lines 491-504). -/
def struct3 (sc : String) (jd : JVal) (st : MediaState) : Except JsErr MediaState := do
  if st.videoUrl ≠ "" then
    return st
  else
    let items ← jget jd "items"
    if ¬ truthy items then
      return st
    else
      let i0 ← jidx items 0
      if ¬ truthy i0 then
        return st
      else
        let vv ← jget i0 "video_versions"
        let hasVv ←
          if ¬ truthy vv then pure false
          else do
            let len ← jget vv "length"
            pure (decide (jvalToInt len > 0))
        if hasVv then itemsAssign sc i0 st else return st

/-- Structure 4: Apollo State format (lines 507-535). -/
def struct4 (sc : String) (jd : JVal) (st : MediaState) : Except JsErr MediaState := do
  if st.videoUrl ≠ "" then
    return st
  else
    let rq ← jget jd "ROOT_QUERY"
    if ¬ truthy rq then
      return st
    else
      let mediaKeys := (jkeys jd).filter
        (fun k => strIncludes k ("Media:" ++ sc) || strIncludes k ("ShortcodeMedia:" ++ sc))
      match mediaKeys with
      | [] => return st
      | k0 :: _ => do
        let media ← jget jd k0
        if ¬ truthy media then
          return st
        else
          let vu ← jget media "video_url"
          if truthy vu then do
            let du ← jget media "display_url"
            let ts ← jget media "thumbnail_src"
            let cap ← captionChain media
            let un ← ownerUsername media
            return { st with
              videoUrl := jvalToStr vu
              fileName := sc ++ ".mp4"
              thumbnailUrl := strOr2 du ts
              caption := cap
              username := un }
          else do
            let vu2 ← jget media "videoUrl"
            if truthy vu2 then do
              let du ← jget media "displayUrl"
              let ts ← jget media "thumbnailSrc"
              let cap ← jget media "caption"
              let un ← ownerUsername media
              return { st with
                videoUrl := jvalToStr vu2
                fileName := sc ++ ".mp4"
                thumbnailUrl := strOr2 du ts
                caption := strOrEmpty cap
                username := un }
            else
              return st

/-- Structure 5: direct API response format (lines 538-548).  Writes no
count fields. -/
def struct5 (sc : String) (jd : JVal) (st : MediaState) : Except JsErr MediaState := do
  if st.videoUrl ≠ "" then
    return st
  else
    let g ← jget jd "graphql"
    if ¬ truthy g then
      return st
    else
      let media ← jget g "shortcode_media"
      if ¬ truthy media then
        return st
      else
        let ok ← isVideoWithUrl media
        if ¬ ok then
          return st
        else do
          let vu ← jget media "video_url"
          let du ← jget media "display_url"
          let ts ← jget media "thumbnail_src"
          let cap ← captionChain media
          let un ← ownerUsername media
          return { st with
            videoUrl := jvalToStr vu
            fileName := sc ++ ".mp4"
            thumbnailUrl := strOr2 du ts
            caption := cap
            username := un }

/-- First of the Structure-6 `videoPatterns` whose capture group is
non-empty (the JS loop guard is `match && match[1]`). -/
def firstVideoPat (env : Env) (s : String) : Option String :=
  [Pat.vp1, Pat.vp2, Pat.vp3, Pat.vp4, Pat.vp5, Pat.vp6].foldr
    (fun p acc =>
      match env.matchRe p s with
      | some u => if u ≠ "" then some u else acc
      | none => acc)
    none

/-- The optional chain plus guarded reads of the preloader block
(lines 582-588); any JS exception inside it is caught at line 590. -/
def preloaderItems (pd : JVal) : Except JsErr (Option String) := do
  -- `preloaderData?.__bbox?.result?.data?.xdt_api__v1__media__shortcode__web_info?.items`
  let b ← if nullish pd then pure JVal.undefV else jget pd "__bbox"
  let r ← if nullish b then pure JVal.undefV else jget b "result"
  let d ← if nullish r then pure JVal.undefV else jget r "data"
  let w ← if nullish d then pure JVal.undefV else jget d "xdt_api__v1__media__shortcode__web_info"
  let items ← if nullish w then pure JVal.undefV else jget w "items"
  if ¬ truthy items then
    return none
  else
    let len ← jget items "length"
    if ¬ (jvalToInt len > 0) then
      return none
    else
      let i0 ← jidx items 0
      let vv ← jget i0 "video_versions"
      if ¬ truthy vv then
        return none
      else
        let l2 ← jget vv "length"
        if ¬ (jvalToInt l2 > 0) then
          return none
        else
          let v0 ← jidx vv 0
          let u ← jget v0 "url"
          return some (jvalToStr u)

/-- Structure 6: textual video-URL patterns over the raw body, then the
Relay preloader fragment (lines 551-595).  The preloader block swallows
its own exceptions, so this stage never throws. -/
def struct6 (sc : String) (env : Env) (body : RespData) (st : MediaState) : MediaState :=
  if st.videoUrl ≠ "" then st
  else
    match body with
    | .json _ => st
    | .str s =>
      match firstVideoPat env s with
      | some u => { st with videoUrl := deEscapeVideo u, fileName := sc ++ ".mp4" }
      | none =>
        match env.matchRe .preloader s with
        | some frag =>
          if frag ≠ "" then
            match env.jsonParse frag with
            | some pd =>
              match preloaderItems pd with
              | .ok (some u) => { st with videoUrl := u, fileName := sc ++ ".mp4" }
              | _ => st
            | none => st
          else st
        | none => st

/-- The whole cascade of lines 409-595 in source order; a JS exception in
any stage aborts the remaining stages (and propagates to the caller's
catch-all). -/
def applyStructures (sc : String) (jd : JVal) (env : Env) (body : RespData)
    (st : MediaState) : Except JsErr MediaState := do
  let st ← directStub sc jd st
  let st ← struct1 sc jd st
  let st ← struct2 sc jd st
  let st ← struct3 sc jd st
  let st ← struct4 sc jd st
  let st ← struct5 sc jd st
  return struct6 sc env body st

/-- The N-th shape extractor, N = 0..5 in source order (used to state the
cascade-selection claim). -/
def structAt (sc : String) (jd : JVal) (env : Env) (body : RespData) :
    Fin 6 → MediaState → Except JsErr MediaState
  | 0 => struct1 sc jd
  | 1 => struct2 sc jd
  | 2 => struct3 sc jd
  | 3 => struct4 sc jd
  | 4 => struct5 sc jd
  | 5 => fun st => .ok (struct6 sc env body st)

/-! ## Fetch negotiation (lines 157-204) -/

def DEFAULT_USER_AGENT : String :=
  "Mozilla/5.0 (Windows NT 10.0; Win64; x64) AppleWebKit/537.36 (KHTML, like Gecko) Chrome/120.0.0.0 Safari/537.36"

def MOBILE_USER_AGENT : String :=
  "Mozilla/5.0 (iPhone; CPU iPhone OS 16_0 like Mac OS X) AppleWebKit/605.1.15 (KHTML, like Gecko) Version/16.0 Mobile/15E148 Safari/604.1"

/-- The four URL/identity variants of lines 158-163, in priority order. -/
def urlFormats (sc : String) : List (String × String) :=
  [("https://www.instagram.com/p/" ++ sc ++ "/", DEFAULT_USER_AGENT),
   ("https://www.instagram.com/reel/" ++ sc ++ "/", DEFAULT_USER_AGENT),
   ("https://www.instagram.com/p/" ++ sc ++ "/", MOBILE_USER_AGENT),
   ("https://www.instagram.com/reel/" ++ sc ++ "/?__a=1&__d=dis", MOBILE_USER_AGENT)]

/-- `await axios.get(...)` for attempt `i`: axios throws on network error
and (with its default `validateStatus`) on any non-2xx status; the loop
catches either and moves on, so an attempt is kept iff it produced a 2xx
response. -/
def axiosResult (env : Env) (i : Nat) : Option Response :=
  match env.fetch i with
  | .netErr => none
  | .resp r => if 200 ≤ r.status ∧ r.status < 300 then some r else none

/-- The `for (const {url, userAgent} of urlFormats)` loop (lines 170-200):
first attempt that returns without throwing wins; its index identifies
`successUrl`/`usedUserAgent`. -/
def tryFormats (env : Env) : Option (Nat × Response) :=
  match axiosResult env 0 with
  | some r => some (0, r)
  | none =>
    match axiosResult env 1 with
    | some r => some (1, r)
    | none =>
      match axiosResult env 2 with
      | some r => some (2, r)
      | none =>
        match axiosResult env 3 with
        | some r => some (3, r)
        | none => none

/-! ## JSON-data extraction (lines 242-292) -/

def jsonPatList : List Pat :=
  [.dataSjs, .addlData, .sharedData, .apolloState, .initialData, .itemsStart, .graphqlStart]

/-- One iteration body of the pattern loop (lines 262-291): the
`^\x7b"items":` pattern is special-cased textually (trim + startsWith on
the body, then `JSON.parse` of the whole body); every other pattern goes
through `String.match` and `JSON.parse` of capture group 1; a parse
failure is caught and the loop continues. -/
def tryJsonPats (env : Env) (body : RespData) : List Pat → JVal × String
  | [] => (.null, "")
  | p :: rest =>
    match body with
    | .json _ => tryJsonPats env body rest
    | .str s =>
      if p = .itemsStart then
        if strStarts (strTrim s) "\x7b\"items\":" then
          match env.jsonParse s with
          | some j => (j, "direct-json")
          | none => tryJsonPats env body rest
        else tryJsonPats env body rest
      else
        match env.matchRe p s with
        | some frag =>
          if frag ≠ "" then
            match env.jsonParse frag with
            | some j => (j, patLabel p)
            | none => tryJsonPats env body rest
          else tryJsonPats env body rest
        | none => tryJsonPats env body rest

/-- Lines 242-292: the direct `?__a=1` JSON branch, then the pattern loop
when nothing truthy was produced. -/
def extractJsonData (env : Env) (successUrl : String) (resp : Response) : JVal × String :=
  let ct := ((resp.headers.lookup "content-type").getD "")
  let first : JVal × String :=
    if strIncludes successUrl "?__a=1" ∧ strIncludes ct "application/json" then
      (match resp.body with
       | .json j => j
       | .str s => .str s, "direct-api-response")
    else (.null, "")
  if truthy first.1 then first else tryJsonPats env resp.body jsonPatList

/-! ## String-body fallbacks (lines 294-377) -/

def digitsToNat : List Char → Nat → Nat
  | [], acc => acc
  | c :: rest, acc => digitsToNat rest (acc * 10 + (c.toNat - '0'.toNat))

/-- `parseInt` on a capture of `(\d+)`; non-digit captures (impossible for
the actual regexes, where NaN would flow through) are modelled as 0. -/
def parseIntJs (s : String) : Int :=
  if s.data ≠ [] ∧ s.data.all (fun c => '0' ≤ c ∧ c ≤ '9') then digitsToNat s.data 0 else 0

/-- Individual-field extraction (lines 300-349): if the `video_versions`
URL regex matches, build the directVideoUrl-plus-metadata object. -/
def individualFields (env : Env) (sc : String) (s : String) : Option JVal :=
  match env.matchRe .fVideoUrl s with
  | none => none
  | some u =>
    if u = "" then none
    else
      let videoUrl := deEscapeIndividual u
      let likes := match env.matchRe .fLike s with
        | some d => parseIntJs d
        | none => 0
      let comments := match env.matchRe .fComment s with
        | some d => parseIntJs d
        | none => 0
      let views := match env.matchRe .fView s with
        | some d => parseIntJs d
        | none => 0
      let username := (env.matchRe .fUsername s).getD ""
      let caption := (env.matchRe .fCaption s).getD ""
      some (.obj
        [("directVideoUrl", .str videoUrl),
         ("shortcode", .str sc),
         ("metadata", .obj
           [("code", .str sc),
            ("like_count", .num likes),
            ("comment_count", .num comments),
            ("view_count", .num views),
            ("user", .obj [("username", .str username)]),
            ("caption", .obj [("text", .str caption)]),
            ("video_versions", .arr [.obj [("url", .str videoUrl)]])])])

/-- First of the `directVideoUrlPatterns` (lines 231-237) with a non-empty
capture (`match && match[1]`). -/
def firstDirectPat (env : Env) (s : String) : Option String :=
  [Pat.dv1, Pat.dv2, Pat.dv3, Pat.dv4, Pat.dv5].foldr
    (fun p acc =>
      match env.matchRe p s with
      | some u => if u ≠ "" then some u else acc
      | none => acc)
    none

/-! ## Diagnostics sink and configuration -/

inductive DebugContent where
  | respBody (b : RespData)
  | jsonContent (j : JVal)
  /-- Failure context of lines 382-387: the successful attempt's URL and
  user agent, the response headers, and the first 1000 characters of the
  body (`'Non-string response'` when the body is not a string). -/
  | failCtx (url userAgent : String) (respHeaders : List (String × String)) (preview : String)

abbrev DebugWrite := String × DebugContent

/-- The four static fields of the class (lines 47-50). -/
structure ApiState where
  debug : Bool
  debugDir : String
  userAgent : String
  verbose : Bool

/-- JS `x || d` for optional option fields (`'' || d` picks `d`). -/
def strOptOr (o : Option String) (d : String) : String :=
  match o with
  | some s => if s = "" then d else s
  | none => d

structure ApiOptions where
  debug : Option Bool
  debugDir : Option String
  userAgent : Option String
  verbose : Option Bool

/-- `InstagramAPI.configure` (lines 98-111); every static field is
overwritten from the options (the `fs.ensureDirSync`/console side effects
are outside the extraction model). -/
def configure (_st : ApiState) (o : ApiOptions) : ApiState :=
  { debug := (o.debug.getD false)
    debugDir := strOptOr o.debugDir "./debug"
    userAgent := strOptOr o.userAgent DEFAULT_USER_AGENT
    verbose := (o.verbose.getD false) }

inductive ResolveError where
  /-- `extractShortcode` threw; re-wrapped by the catch-all at line 625. -/
  | urlError (e : UrlError)
  /-- line 203: no fetch attempt succeeded. -/
  | fetchExhausted (sc : String)
  /-- line 390: no pattern produced JSON data or a direct video URL. -/
  | noMediaFound (sc : String)
  /-- line 602: JSON data was produced but no shape yielded a video URL. -/
  | noVideoUrl (sc : String)
  /-- a JS exception from the extraction cascade, re-wrapped at line 625. -/
  | jsError (e : JsErr)
deriving DecidableEq, Repr

def bodyPreview : RespData → String
  | .str s => strTake s 1000
  | .json _ => "Non-string response"

/-- Lines 210-622: everything after a successful fetch.  Returns the
result together with the ordered list of diagnostics-sink writes. -/
def processResponse (st : ApiState) (env : Env) (sc successUrl usedUA : String)
    (resp : Response) (origUrl : String) :
    Except ResolveError MediaInfo × List DebugWrite :=
  let w0 : List DebugWrite :=
    if st.debug then [("raw-response-" ++ sc, .respBody resp.body)] else []
  let jp := extractJsonData env successUrl resp
  let jp :=
    if truthy jp.1 then jp
    else
      match resp.body with
      | .json _ => jp
      | .str s =>
        match individualFields env sc s with
        | some j => (j, "individual-field-extraction")
        | none =>
          match firstDirectPat env s with
          | some u =>
            (.obj [("directVideoUrl", .str (deEscapeDirect u)), ("shortcode", .str sc)],
             "direct-video-url-pattern")
          | none => jp
  if ¬ truthy jp.1 then
    let w1 := w0 ++ (if st.debug then
      [("failed-extraction-" ++ sc,
        .failCtx successUrl usedUA resp.headers (bodyPreview resp.body))] else [])
    (.error (.noMediaFound sc), w1)
  else
    let w1 := w0 ++ (if st.debug then
      [("extracted-json-" ++ sc ++ "-" ++ jp.2, .jsonContent jp.1)] else [])
    match applyStructures sc jp.1 env resp.body initState with
    | .error e => (.error (.jsError e), w1)
    | .ok ms =>
      if ms.videoUrl = "" then
        let w2 := w1 ++ (if st.debug then [("no-video-url-" ++ sc, .jsonContent jp.1)] else [])
        (.error (.noVideoUrl sc), w2)
      else
        (.ok ⟨ms.videoUrl, ms.fileName, ms.thumbnailUrl, ms.caption, ms.username,
          ms.likes, ms.comments, ms.views, origUrl⟩, w1)

structure RunResult where
  state : ApiState
  result : Except ResolveError MediaInfo
  writes : List DebugWrite

/-- `InstagramAPI.getMediaInfo` (lines 145-629): optional per-call
configuration of the shared static state, shortcode extraction, fetch
negotiation, then response processing. -/
def getMediaInfo (st0 : ApiState) (env : Env) (url : String) (opts : Option ApiOptions) :
    RunResult :=
  let st := match opts with
    | some o => configure st0 o
    | none => st0
  match extractShortcode url with
  | .error e => ⟨st, .error (.urlError e), []⟩
  | .ok sc =>
    match tryFormats env with
    | none => ⟨st, .error (.fetchExhausted sc), []⟩
    | some (i, resp) =>
      let fmt := (urlFormats sc).getD i ("", "")
      let pr := processResponse st env sc fmt.1 fmt.2 resp url
      ⟨st, pr.1, pr.2⟩

/-! ## Basic lemmas about the cascade -/

theorem bind_ok {α β : Type} {e : Type} (a : α) (f : α → Except e β) :
    (Except.ok a : Except e α) >>= f = f a := rfl

/-- Every shape extractor is a no-op once a video URL has been found
(their guards all begin with `!videoUrl`). -/
theorem struct1_skip (sc : String) (jd : JVal) (st : MediaState) (h : st.videoUrl ≠ "") :
    struct1 sc jd st = .ok st := by
  unfold struct1
  rw [if_pos h]
  rfl

theorem struct2_skip (sc : String) (jd : JVal) (st : MediaState) (h : st.videoUrl ≠ "") :
    struct2 sc jd st = .ok st := by
  unfold struct2
  rw [if_pos h]
  rfl

theorem struct3_skip (sc : String) (jd : JVal) (st : MediaState) (h : st.videoUrl ≠ "") :
    struct3 sc jd st = .ok st := by
  unfold struct3
  rw [if_pos h]
  rfl

theorem struct4_skip (sc : String) (jd : JVal) (st : MediaState) (h : st.videoUrl ≠ "") :
    struct4 sc jd st = .ok st := by
  unfold struct4
  rw [if_pos h]
  rfl

theorem struct5_skip (sc : String) (jd : JVal) (st : MediaState) (h : st.videoUrl ≠ "") :
    struct5 sc jd st = .ok st := by
  unfold struct5
  rw [if_pos h]
  rfl

theorem struct6_skip (sc : String) (env : Env) (body : RespData) (st : MediaState)
    (h : st.videoUrl ≠ "") : struct6 sc env body st = st := by
  unfold struct6
  rw [if_pos h]

/-- Property access on a non-nullish value cannot throw. -/
theorem jget_nn (jd : JVal) (k : String) (h : nullish jd = false) :
    jget jd k = .ok (jgetD jd k) := by
  cases jd <;> simp_all [nullish, jget, jgetD]


theorem directStub_nomatch (sc : String) (jd : JVal) (st : MediaState)
    (hjd : nullish jd = false) (h : truthy (jgetD jd "directVideoUrl") = false) :
    directStub sc jd st = .ok st := by
  unfold directStub
  rw [jget_nn jd _ hjd, bind_ok, h]
  simp
  rfl

theorem struct1_nomatch (sc : String) (jd : JVal) (st : MediaState)
    (hjd : nullish jd = false) (h : truthy (jgetD jd "require") = false) :
    struct1 sc jd st = .ok st := by
  unfold struct1
  by_cases hv : st.videoUrl ≠ ""
  · rw [if_pos hv]; rfl
  · rw [if_neg hv, jget_nn jd _ hjd, bind_ok, h]
    simp
    rfl

theorem struct2_nomatch (sc : String) (jd : JVal) (st : MediaState)
    (hjd : nullish jd = false) (h : truthy (jgetD jd "entry_data") = false) :
    struct2 sc jd st = .ok st := by
  unfold struct2
  by_cases hv : st.videoUrl ≠ ""
  · rw [if_pos hv]; rfl
  · rw [if_neg hv, jget_nn jd _ hjd, bind_ok, h]
    simp
    rfl

theorem struct3_nomatch (sc : String) (jd : JVal) (st : MediaState)
    (hjd : nullish jd = false) (h : truthy (jgetD jd "items") = false) :
    struct3 sc jd st = .ok st := by
  unfold struct3
  by_cases hv : st.videoUrl ≠ ""
  · rw [if_pos hv]; rfl
  · rw [if_neg hv, jget_nn jd _ hjd, bind_ok, h]
    simp
    rfl

theorem struct4_nomatch (sc : String) (jd : JVal) (st : MediaState)
    (hjd : nullish jd = false) (h : truthy (jgetD jd "ROOT_QUERY") = false) :
    struct4 sc jd st = .ok st := by
  unfold struct4
  by_cases hv : st.videoUrl ≠ ""
  · rw [if_pos hv]; rfl
  · rw [if_neg hv, jget_nn jd _ hjd, bind_ok, h]
    simp
    rfl

theorem struct5_nomatch (sc : String) (jd : JVal) (st : MediaState)
    (hjd : nullish jd = false) (h : truthy (jgetD jd "graphql") = false) :
    struct5 sc jd st = .ok st := by
  unfold struct5
  by_cases hv : st.videoUrl ≠ ""
  · rw [if_pos hv]; rfl
  · rw [if_neg hv, jget_nn jd _ hjd, bind_ok, h]
    simp
    rfl

theorem struct6_nomatch (sc : String) (env : Env) (bodyStr : String) (st : MediaState)
    (hvp : ∀ p, env.matchRe p bodyStr = none) :
    struct6 sc env (.str bodyStr) st = st := by
  unfold struct6
  by_cases hv : st.videoUrl ≠ ""
  · rw [if_pos hv]
  · rw [if_neg hv]
    have hfv : firstVideoPat env bodyStr = none := by
      unfold firstVideoPat
      simp [hvp]
    simp [hfv, hvp Pat.preloader]

/-- Structure 4 never writes the count fields (lines 517-532 assign
everything except likes/comments/views). -/
theorem struct4_counts (sc : String) (jd : JVal) (st st' : MediaState)
    (h : struct4 sc jd st = .ok st') :
    st'.likes = st.likes ∧ st'.comments = st.comments ∧ st'.views = st.views := by
  unfold struct4 at h
  simp only [bind, Except.bind, pure, Except.pure] at h
  repeat' split at h
  all_goals first
    | exact Except.noConfusion h
    | (injection h with h2; subst h2; simp)

/-- Structure 5 never writes the count fields (lines 540-547). -/
theorem struct5_counts (sc : String) (jd : JVal) (st st' : MediaState)
    (h : struct5 sc jd st = .ok st') :
    st'.likes = st.likes ∧ st'.comments = st.comments ∧ st'.views = st.views := by
  unfold struct5 at h
  simp only [bind, Except.bind, pure, Except.pure] at h
  repeat' split at h
  all_goals first
    | exact Except.noConfusion h
    | (injection h with h2; subst h2; simp)

/-- Structure 6 writes only `videoUrl` and `fileName` (lines 551-595). -/
theorem struct6_preserves (sc : String) (env : Env) (body : RespData) (st : MediaState) :
    (struct6 sc env body st).likes = st.likes ∧ (struct6 sc env body st).comments = st.comments ∧
    (struct6 sc env body st).views = st.views ∧
    (struct6 sc env body st).thumbnailUrl = st.thumbnailUrl ∧
    (struct6 sc env body st).caption = st.caption ∧
    (struct6 sc env body st).username = st.username := by
  unfold struct6
  repeat' split
  all_goals simp

/-! ## Shared concrete fixtures -/

/-- Oracle environment in which every fetch fails and nothing matches. -/
def envNone : Env :=
  ⟨fun _ => .netErr, fun _ _ => none, fun _ => none⟩

/-- Static state after a reset (`configure {}`). -/
def stPlain : ApiState :=
  ⟨false, "./debug", DEFAULT_USER_AGENT, false⟩

/-- Static state left behind by an earlier `configure({debug: true})`. -/
def stDebug : ApiState :=
  ⟨true, "./debug", DEFAULT_USER_AGENT, false⟩

def reelUrl : String :=
  "https://www.instagram.com/reel/ABC123xyz/"

/-! ## Claim theorems -/

/-- C1: for every parsed structured-data value that matches field-path
Shape N and no earlier shape (an earlier non-match leaves the assembly
state untouched), the cascade's result is exactly Shape N's extraction:
the six shapes are tried in the fixed source order, the first one whose
media-URL field is present and non-empty wins, and once it wins all
remaining shapes are skipped (their `!videoUrl` guards fail). -/
theorem c1_shape_cascade_first_match (sc : String) (jd : JVal) (env : Env) (body : RespData)
    (st st' : MediaState) (N : Fin 6)
    (hstub : directStub sc jd st = .ok st)
    (hearlier : ∀ M : Fin 6, M < N → structAt sc jd env body M st = .ok st)
    (hN : structAt sc jd env body N st = .ok st')
    (hurl : st'.videoUrl ≠ "") :
    applyStructures sc jd env body st = .ok st' := by
  unfold applyStructures
  fin_cases N
  · have h0 : struct1 sc jd st = .ok st' := hN
    rw [hstub, bind_ok, h0, bind_ok, struct2_skip sc jd st' hurl, bind_ok,
      struct3_skip sc jd st' hurl, bind_ok, struct4_skip sc jd st' hurl, bind_ok,
      struct5_skip sc jd st' hurl, bind_ok, struct6_skip sc env body st' hurl]
    rfl
  · have h0 : struct1 sc jd st = .ok st := hearlier 0 (by decide)
    have h1 : struct2 sc jd st = .ok st' := hN
    rw [hstub, bind_ok, h0, bind_ok, h1, bind_ok,
      struct3_skip sc jd st' hurl, bind_ok, struct4_skip sc jd st' hurl, bind_ok,
      struct5_skip sc jd st' hurl, bind_ok, struct6_skip sc env body st' hurl]
    rfl
  · have h0 : struct1 sc jd st = .ok st := hearlier 0 (by decide)
    have h1 : struct2 sc jd st = .ok st := hearlier 1 (by decide)
    have h2 : struct3 sc jd st = .ok st' := hN
    rw [hstub, bind_ok, h0, bind_ok, h1, bind_ok, h2, bind_ok,
      struct4_skip sc jd st' hurl, bind_ok,
      struct5_skip sc jd st' hurl, bind_ok, struct6_skip sc env body st' hurl]
    rfl
  · have h0 : struct1 sc jd st = .ok st := hearlier 0 (by decide)
    have h1 : struct2 sc jd st = .ok st := hearlier 1 (by decide)
    have h2 : struct3 sc jd st = .ok st := hearlier 2 (by decide)
    have h3 : struct4 sc jd st = .ok st' := hN
    rw [hstub, bind_ok, h0, bind_ok, h1, bind_ok, h2, bind_ok, h3, bind_ok,
      struct5_skip sc jd st' hurl, bind_ok, struct6_skip sc env body st' hurl]
    rfl
  · have h0 : struct1 sc jd st = .ok st := hearlier 0 (by decide)
    have h1 : struct2 sc jd st = .ok st := hearlier 1 (by decide)
    have h2 : struct3 sc jd st = .ok st := hearlier 2 (by decide)
    have h3 : struct4 sc jd st = .ok st := hearlier 3 (by decide)
    have h4 : struct5 sc jd st = .ok st' := hN
    rw [hstub, bind_ok, h0, bind_ok, h1, bind_ok, h2, bind_ok, h3, bind_ok, h4, bind_ok,
      struct6_skip sc env body st' hurl]
    rfl
  · have h0 : struct1 sc jd st = .ok st := hearlier 0 (by decide)
    have h1 : struct2 sc jd st = .ok st := hearlier 1 (by decide)
    have h2 : struct3 sc jd st = .ok st := hearlier 2 (by decide)
    have h3 : struct4 sc jd st = .ok st := hearlier 3 (by decide)
    have h4 : struct5 sc jd st = .ok st := hearlier 4 (by decide)
    have h5 : Except.ok (struct6 sc env body st) = (.ok st' : Except JsErr MediaState) := hN
    rw [hstub, bind_ok, h0, bind_ok, h1, bind_ok, h2, bind_ok, h3, bind_ok, h4, bind_ok]
    exact h5

/-- A Shape-3 fixture (`items[0].video_versions`) that matches no earlier
shape. -/
def c1Jd : JVal :=
  .obj [("items", .arr [.obj
    [("video_versions", .arr [.obj [("url", .str "https://ok.mp4")]]),
     ("like_count", .num 3)]])]

def c1St : MediaState :=
  ⟨"https://ok.mp4", "SC.mp4", "", "", "", 3, 0, 0⟩

/-- Witness for C1: at the concrete Shape-3 fixture, shape 3 (index 2)
matches, shapes 1-2 are non-matches, and the cascade returns exactly
shape 3's extraction. -/
theorem c1_witness :
    structAt "SC" c1Jd envNone (.str "") 2 initState = .ok c1St ∧
    applyStructures "SC" c1Jd envNone (.str "") initState = .ok c1St :=
  ⟨rfl,
   c1_shape_cascade_first_match "SC" c1Jd envNone (.str "") initState c1St 2 rfl
     (by intro M hM; fin_cases M <;> first | rfl | exact absurd hM (by decide))
     rfl (by decide)⟩

/-- A response usable in the spec's sense: 2xx with a non-empty body.
Modelled from the spec's words, for comparison with the code's behaviour. -/
def specUsable (r : Response) : Prop :=
  200 ≤ r.status ∧ r.status < 300 ∧
    (match r.body with
     | .str s => s ≠ ""
     | .json _ => True)

def c2Env : Env :=
  ⟨fun i => if i = 0 then .resp ⟨200, [], .str ""⟩ else .resp ⟨200, [], .str "X"⟩,
   fun _ _ => none, fun _ => none⟩

/-- C2 counterexample: attempt 1 answers 2xx with an EMPTY body and the
loop stops there (the resolve call then fails NoMediaFound), even though
the first response that is usable in the claim's sense (2xx AND non-empty
body) is attempt 2: the code never checks body emptiness. -/
theorem c2_counterexample :
    tryFormats c2Env = some (0, ⟨200, [], .str ""⟩) ∧
    ¬ specUsable ⟨200, [], .str ""⟩ ∧
    specUsable ⟨200, [], .str "X"⟩ ∧
    axiosResult c2Env 1 = some ⟨200, [], .str "X"⟩ ∧
    (getMediaInfo stPlain c2Env reelUrl none).result = .error (.noMediaFound "ABC123xyz") :=
  ⟨rfl,
   by simp [specUsable],
   by simp [specUsable],
   rfl, rfl⟩

/-- C2 amended: the four fetch attempts are consulted strictly in the
fixed priority order; the loop keeps the first attempt that returns a 2xx
response (regardless of body emptiness), continues past any failed
attempt, and when all four fail the call fails with FetchExhausted naming
the extracted identifier. -/
theorem c2_fetch_order (env : Env) (stAny : ApiState) (url sc : String)
    (hsc : extractShortcode url = .ok sc)
    (hall : ∀ i, i < 4 → axiosResult env i = none) :
    (getMediaInfo stAny env url none).result = .error (.fetchExhausted sc) ∧
    (∀ (envA : Env) (i : Nat) (r : Response),
      tryFormats envA = some (i, r) ↔
        (i < 4 ∧ axiosResult envA i = some r ∧ ∀ j, j < i → axiosResult envA j = none)) := by
  constructor
  · have hnone : tryFormats env = none := by
      unfold tryFormats
      rw [hall 0 (by omega), hall 1 (by omega), hall 2 (by omega), hall 3 (by omega)]
    unfold getMediaInfo
    rw [hsc, hnone]
  · intro envA i r
    constructor
    · intro h
      unfold tryFormats at h
      cases h0 : axiosResult envA 0 with
      | some r0 =>
        rw [h0] at h
        injection h with h1
        injection h1 with hi hr
        subst hi; subst hr
        exact ⟨by omega, h0, fun j hj => absurd hj (by omega)⟩
      | none =>
        rw [h0] at h
        cases h1 : axiosResult envA 1 with
        | some r1 =>
          rw [h1] at h
          injection h with hh
          injection hh with hi hr
          subst hi; subst hr
          refine ⟨by omega, h1, fun j hj => ?_⟩
          interval_cases j
          exact h0
        | none =>
          rw [h1] at h
          cases h2 : axiosResult envA 2 with
          | some r2 =>
            rw [h2] at h
            injection h with hh
            injection hh with hi hr
            subst hi; subst hr
            refine ⟨by omega, h2, fun j hj => ?_⟩
            interval_cases j
            · exact h0
            · exact h1
          | none =>
            rw [h2] at h
            cases h3 : axiosResult envA 3 with
            | some r3 =>
              rw [h3] at h
              injection h with hh
              injection hh with hi hr
              subst hi; subst hr
              refine ⟨by omega, h3, fun j hj => ?_⟩
              interval_cases j
              · exact h0
              · exact h1
              · exact h2
            | none =>
              rw [h3] at h
              exact Option.noConfusion h
    · rintro ⟨hi4, hir, hprev⟩
      interval_cases i
      · unfold tryFormats
        rw [hir]
      · unfold tryFormats
        rw [hprev 0 (by omega), hir]
      · unfold tryFormats
        rw [hprev 0 (by omega), hprev 1 (by omega), hir]
      · unfold tryFormats
        rw [hprev 0 (by omega), hprev 1 (by omega), hprev 2 (by omega), hir]

def c2FailEnv : Env :=
  ⟨fun _ => .netErr, fun _ _ => none, fun _ => none⟩

/-- Witness for C2 (amended): with every attempt failing, resolve fails
with FetchExhausted naming the identifier, and the attempt selected for a
mixed outcome vector is the first 2xx one. -/
theorem c2_witness :
    (getMediaInfo stPlain c2FailEnv reelUrl none).result =
      .error (.fetchExhausted "ABC123xyz") :=
  (c2_fetch_order c2FailEnv stPlain reelUrl "ABC123xyz" rfl
    (fun i hi => by interval_cases i <;> rfl)).1

def evilUrl : String := "https://evil.com/p/ABC?x=instagram.com"

/-- C3 counterexample: the code checks `url.includes('instagram.com')` on
the WHOLE url string, not the parsed host, so a URL whose host is
`evil.com` (the substring only occurs in its query string) passes the
domain check and extraction succeeds instead of failing with
InvalidDomain. -/
theorem c3_counterexample :
    parseUrl evilUrl = some ⟨"evil.com", "/p/ABC"⟩ ∧
    "evil.com" ≠ "instagram.com" ∧ "evil.com" ≠ "www.instagram.com" ∧
    extractShortcode evilUrl = .ok "ABC" :=
  ⟨rfl, by decide, by decide, rfl⟩

/-- C3 amended: `extractShortcode` fails with InvalidDomain exactly when
the URL STRING does not contain the substring "instagram.com"; otherwise,
for a parseable URL, it returns the last path segment when the path
(after stripping one trailing slash) has at least 3 segments whose
second-to-last is in the whitelist p/reel/tv, and fails with
UnrecognizedUrlShape otherwise. -/
theorem c3_extract_identifier (url : String) :
    (strIncludes url "instagram.com" = false →
      extractShortcode url = .error (.invalidDomain url)) ∧
    (∀ up : UrlParts, strIncludes url "instagram.com" = true → parseUrl url = some up →
      (((cleanSegments up.pathname).length ≥ 3 ∧
        ["p", "reel", "tv"].contains
          ((cleanSegments up.pathname).getD ((cleanSegments up.pathname).length - 2) "") →
        extractShortcode url =
          .ok ((cleanSegments up.pathname).getD ((cleanSegments up.pathname).length - 1) "")) ∧
      (¬ ((cleanSegments up.pathname).length ≥ 3 ∧
        ["p", "reel", "tv"].contains
          ((cleanSegments up.pathname).getD ((cleanSegments up.pathname).length - 2) "")) →
        extractShortcode url = .error (.unrecognizedUrlShape url)))) := by
  constructor
  · intro h
    unfold extractShortcode
    rw [if_pos]
    simp [h]
  · intro up hin hp
    constructor
    · intro hg
      unfold extractShortcode
      rw [if_neg (by simp [hin]), hp]
      dsimp only
      rw [if_pos hg]
    · intro hg
      unfold extractShortcode
      rw [if_neg (by simp [hin]), hp]
      dsimp only
      rw [if_neg hg]

/-- Witness for C3 (amended): the canonical reel URL yields its trailing
segment. -/
theorem c3_witness :
    strIncludes reelUrl "instagram.com" = true ∧
    parseUrl reelUrl = some ⟨"www.instagram.com", "/reel/ABC123xyz/"⟩ ∧
    extractShortcode reelUrl = .ok "ABC123xyz" :=
  ⟨by decide, rfl,
   ((c3_extract_identifier reelUrl).2 ⟨"www.instagram.com", "/reel/ABC123xyz/"⟩
     (by decide) rfl).1 (by decide)⟩

/-- C4 counterexample: the direct-URL de-escape chain (lines 360-363) is
NOT idempotent and its output can still contain an escape sequence: on
the three-character input backslash-backslash-slash, one pass yields
backslash-slash (an escape sequence the chain itself rewrites), and a
second pass yields a bare slash. -/
theorem c4_counterexample :
    deEscapeDirect (deEscapeDirect "\\\\/") ≠ deEscapeDirect "\\\\/" ∧
    strIncludes (deEscapeDirect "\\\\/") "\\/" = true :=
  ⟨by decide, by decide⟩

/-- C4 amended: the Structure-6 de-escape chain (lines 565-570) IS
idempotent and its output contains none of its six escape sequences,
because each of its replacement characters occurs in none of its
patterns; the direct-URL chain lacks that property (see the
counterexample). -/
theorem c4_deescape (x : String) :
    deEscapeVideo (deEscapeVideo x) = deEscapeVideo x ∧
    strIncludes (deEscapeVideo x) "\\u0025" = false ∧
    strIncludes (deEscapeVideo x) "\\u002F" = false ∧
    strIncludes (deEscapeVideo x) "\\u003A" = false ∧
    strIncludes (deEscapeVideo x) "\\u003F" = false ∧
    strIncludes (deEscapeVideo x) "\\u003D" = false ∧
    strIncludes (deEscapeVideo x) "\\u0026" = false := by
  refine ⟨deEscapeVideo_idem x, ?_, ?_, ?_, ?_, ?_, ?_⟩
  · exact Bool.eq_false_iff.mpr (fun h => dev_no1 x ((isSegOf_iff _ _).mp h))
  · exact Bool.eq_false_iff.mpr (fun h => dev_no2 x ((isSegOf_iff _ _).mp h))
  · exact Bool.eq_false_iff.mpr (fun h => dev_no3 x ((isSegOf_iff _ _).mp h))
  · exact Bool.eq_false_iff.mpr (fun h => dev_no4 x ((isSegOf_iff _ _).mp h))
  · exact Bool.eq_false_iff.mpr (fun h => dev_no5 x ((isSegOf_iff _ _).mp h))
  · exact Bool.eq_false_iff.mpr (fun h => dev_no6 x ((isSegOf_iff _ _).mp h))

def c7Media : JVal :=
  .obj [("is_video", .bool true), ("video_url", .str "https://cdn/x.mp4"),
    ("owner", .obj [("username", .str "alice")]), ("like_count", .num 10)]

def c7Jd : JVal :=
  .obj [("require", .arr [.arr [.str "PostPage",
    .obj [("graphql", .obj [("shortcode_media", c7Media)])]]])]

/-- Fetch attempt 2 (index 1) answers 2xx, document-extraction pattern 1
matches its body, and the fragment parses to the Shape-1 fixture. -/
def c7Env : Env :=
  ⟨fun i => if i = 1 then .resp ⟨200, [], .str "B7"⟩ else .netErr,
   fun p s => if p = .dataSjs ∧ s = "B7" then some "F7" else none,
   fun s => if s = "F7" then some c7Jd else none⟩

/-- C7 counterexample: the Shape-1 graphql extractor reads likes from
`edge_media_preview_like.count`, never from a literal `like_count` field,
so the claim's fixture (with `like_count = 10` next to `video_url` and
`owner.username`) yields likeCount 0, not the claimed 10. -/
theorem c7_counterexample :
    (getMediaInfo stPlain c7Env reelUrl none).result =
      .ok ⟨"https://cdn/x.mp4", "ABC123xyz.mp4", "", "", "alice", 0, 0, 0, reelUrl⟩ ∧
    (0 : Int) ≠ 10 :=
  ⟨rfl, by decide⟩

def c7MediaB : JVal :=
  .obj [("is_video", .bool true), ("video_url", .str "https://cdn/x.mp4"),
    ("owner", .obj [("username", .str "alice")]),
    ("edge_media_preview_like", .obj [("count", .num 10)])]

def c7JdB : JVal :=
  .obj [("require", .arr [.arr [.str "PostPage",
    .obj [("graphql", .obj [("shortcode_media", c7MediaB)])]]])]

def c7EnvB : Env :=
  ⟨fun i => if i = 1 then .resp ⟨200, [], .str "B7"⟩ else .netErr,
   fun p s => if p = .dataSjs ∧ s = "B7" then some "F7" else none,
   fun s => if s = "F7" then some c7JdB else none⟩

/-- C7 amended: the same scenario with the like count of 10 carried in the
field Shape 1 actually reads (`edge_media_preview_like.count`): fetch
attempt 2 is selected and resolve returns exactly
ExtractedMedia("https://cdn/x.mp4", "ABC123xyz.mp4", alice, 10, 0, 0). -/
theorem c7_scenario :
    tryFormats c7EnvB = some (1, ⟨200, [], .str "B7"⟩) ∧
    (getMediaInfo stPlain c7EnvB reelUrl none).result =
      .ok ⟨"https://cdn/x.mp4", "ABC123xyz.mp4", "", "", "alice", 10, 0, 0, reelUrl⟩ :=
  ⟨rfl, rfl⟩

def c8Jd : JVal := .obj [("require", .obj [("x", .num 1)])]

def c8Env : Env :=
  ⟨fun i => if i = 0 then .resp ⟨200, [], .str "B8"⟩ else .netErr,
   fun p s => if p = .dataSjs ∧ s = "B8" then some "F8" else none,
   fun s => if s = "F8" then some c8Jd else none⟩

/-- C8 counterexample: parsed structured data whose `require` field is a
truthy non-array makes Shape 1 call `.find` on a value that has no such
method: a TypeError propagates out of resolve (re-wrapped by the
catch-all) — an error other than the terminal FetchExhausted /
NoMediaFound failures the claim allows. -/
theorem c8_counterexample :
    (getMediaInfo stPlain c8Env reelUrl none).result =
      .error (.jsError (.typeErr "jsonData.require.find is not a function")) ∧
    ResolveError.jsError (.typeErr "jsonData.require.find is not a function") ≠
      .fetchExhausted "ABC123xyz" ∧
    ResolveError.jsError (.typeErr "jsonData.require.find is not a function") ≠
      .noMediaFound "ABC123xyz" ∧
    ResolveError.jsError (.typeErr "jsonData.require.find is not a function") ≠
      .noVideoUrl "ABC123xyz" :=
  ⟨rfl, by decide, by decide, by decide⟩

/-- C8 amended: a strategy whose entry field is absent or falsy returns a
non-match — the state unchanged, no error — so with every entry field
absent/falsy and no textual pattern matching, the whole cascade returns
its input state without throwing.  (A type-confused PRESENT field can
still throw, as the counterexample shows, so the claim's unrestricted
no-throw guarantee does not hold.) -/
theorem c8_nonmatch_no_throw (sc : String) (jd : JVal) (env : Env) (bodyStr : String)
    (st : MediaState) (hjd : nullish jd = false)
    (hdv : truthy (jgetD jd "directVideoUrl") = false)
    (hreq : truthy (jgetD jd "require") = false)
    (hed : truthy (jgetD jd "entry_data") = false)
    (hit : truthy (jgetD jd "items") = false)
    (hrq : truthy (jgetD jd "ROOT_QUERY") = false)
    (hgq : truthy (jgetD jd "graphql") = false)
    (hvp : ∀ p, env.matchRe p bodyStr = none) :
    applyStructures sc jd env (.str bodyStr) st = .ok st := by
  unfold applyStructures
  rw [directStub_nomatch sc jd st hjd hdv, bind_ok,
    struct1_nomatch sc jd st hjd hreq, bind_ok,
    struct2_nomatch sc jd st hjd hed, bind_ok,
    struct3_nomatch sc jd st hjd hit, bind_ok,
    struct4_nomatch sc jd st hjd hrq, bind_ok,
    struct5_nomatch sc jd st hjd hgq, bind_ok,
    struct6_nomatch sc env bodyStr st hvp]
  rfl

/-- Witness for C8 (amended): the empty object matches no strategy and the
cascade returns the initial state unchanged. -/
theorem c8_witness :
    applyStructures "SC" (JVal.obj []) envNone (.str "zz") initState = .ok initState :=
  c8_nonmatch_no_throw "SC" (JVal.obj []) envNone "zz" initState rfl rfl rfl rfl rfl rfl rfl
    (fun _ => rfl)

def c9Env : Env :=
  ⟨fun i => if i = 0 then .resp ⟨200, [("content-type", "text/html")], .str "zzz"⟩ else .netErr,
   fun _ _ => none, fun _ => none⟩

def c9Writes : List DebugWrite :=
  [("raw-response-ABC123xyz", .respBody (.str "zzz")),
   ("failed-extraction-ABC123xyz",
     .failCtx "https://www.instagram.com/p/ABC123xyz/" DEFAULT_USER_AGENT
       [("content-type", "text/html")] "zzz")]

/-- C9 counterexample: with per-call options omitted, the same resolve
call behaves differently depending on leftover static configuration from
an earlier configure() — after configure({debug:true}) it performs
diagnostics writes that a freshly-reset engine does not, so the engine
DOES hold cross-call mutable state beyond explicitly-passed
configuration. -/
theorem c9_counterexample :
    (getMediaInfo stPlain c9Env reelUrl none).writes = [] ∧
    (getMediaInfo stDebug c9Env reelUrl none).writes = c9Writes ∧
    c9Writes ≠ [] :=
  ⟨rfl, rfl, fun h => List.noConfusion h⟩

/-- C9 amended: when per-call options ARE supplied, configure() overwrites
every shared static field from those options alone, so two calls with the
same URL, environment and options produce identical results, diagnostics
and final state regardless of any earlier call's configuration. -/
theorem c9_per_call_options_determinism (s1 s2 : ApiState) (env : Env) (url : String)
    (o : ApiOptions) :
    getMediaInfo s1 env url (some o) = getMediaInfo s2 env url (some o) := rfl

def c10Jd : JVal :=
  .obj
    [("items", .arr [.obj
       [("video_versions", .arr [.obj [("url", .str "")]]),
        ("like_count", .num 7)]]),
     ("graphql", .obj [("shortcode_media",
       .obj [("is_video", .bool true), ("video_url", .str "https://v.mp4")])])]

/-- C10 counterexample: Structure 3 partially matches (non-empty
`video_versions` whose url is EMPTY) and writes likes := 7 before falling
through; Structure 5 then supplies the video URL.  Resolve succeeds via
Shape 5 yet returns likeCount 7, not 0. -/
theorem c10_counterexample :
    applyStructures "SC" c10Jd envNone (.str "") initState =
      .ok ⟨"https://v.mp4", "SC.mp4", "", "", "", 7, 0, 0⟩ ∧
    struct5 "SC" c10Jd ⟨"", "SC.mp4", "", "", "", 7, 0, 0⟩ =
      .ok ⟨"https://v.mp4", "SC.mp4", "", "", "", 7, 0, 0⟩ ∧
    (7 : Int) ≠ 0 :=
  ⟨rfl, rfl, by decide⟩

/-- C10 amended: the Shape 4 and Shape 5 extractors never write the count
fields, and Shape 6 writes neither counts nor thumbnail, caption or
owner; those fields keep whatever the earlier stages left — 0 when no
earlier shape partially matched, but not in general (see the
counterexample). -/
theorem c10_counts_preserved (sc : String) (jd : JVal) (env : Env) (body : RespData)
    (st st4 st5 : MediaState)
    (h4 : struct4 sc jd st = .ok st4) (h5 : struct5 sc jd st = .ok st5) :
    (st4.likes = st.likes ∧ st4.comments = st.comments ∧ st4.views = st.views) ∧
    (st5.likes = st.likes ∧ st5.comments = st.comments ∧ st5.views = st.views) ∧
    ((struct6 sc env body st).likes = st.likes ∧
     (struct6 sc env body st).comments = st.comments ∧
     (struct6 sc env body st).views = st.views ∧
     (struct6 sc env body st).thumbnailUrl = st.thumbnailUrl ∧
     (struct6 sc env body st).caption = st.caption ∧
     (struct6 sc env body st).username = st.username) :=
  ⟨struct4_counts sc jd st st4 h4, struct5_counts sc jd st st5 h5,
   struct6_preserves sc env body st⟩

def c10Jd4 : JVal :=
  .obj [("ROOT_QUERY", .obj [("q", .num 1)]),
    ("Media:SC", .obj [("video_url", .str "https://u.mp4")])]

def c10St4 : MediaState :=
  ⟨"https://u.mp4", "SC.mp4", "", "", "", 0, 0, 0⟩

/-- Witness for C10 (amended): a Shape-4 match on a fresh state keeps all
three counts at 0. -/
theorem c10_witness :
    struct4 "SC" c10Jd4 initState = .ok c10St4 ∧
    ((c10St4.likes = initState.likes ∧ c10St4.comments = initState.comments ∧
      c10St4.views = initState.views) ∧
     (initState.likes = initState.likes ∧ initState.comments = initState.comments ∧
      initState.views = initState.views) ∧
     ((struct6 "SC" envNone (.str "") initState).likes = initState.likes ∧
      (struct6 "SC" envNone (.str "") initState).comments = initState.comments ∧
      (struct6 "SC" envNone (.str "") initState).views = initState.views ∧
      (struct6 "SC" envNone (.str "") initState).thumbnailUrl = initState.thumbnailUrl ∧
      (struct6 "SC" envNone (.str "") initState).caption = initState.caption ∧
      (struct6 "SC" envNone (.str "") initState).username = initState.username)) :=
  ⟨rfl, c10_counts_preserved "SC" c10Jd4 envNone (.str "") initState c10St4 initState rfl rfl⟩

/-! ## Pattern-stage helper lemmas for C5/C6 -/

theorem tryJsonPats_none (env : Env) (s : String)
    (hpats : ∀ p, p ∈ jsonPatList → env.matchRe p s = none)
    (hitems : strStarts (strTrim s) "\x7b\"items\":" = false) :
    tryJsonPats env (.str s) jsonPatList = (.null, "") := by
  simp [jsonPatList, tryJsonPats, hitems,
    hpats .dataSjs (by simp [jsonPatList]), hpats .addlData (by simp [jsonPatList]),
    hpats .sharedData (by simp [jsonPatList]), hpats .apolloState (by simp [jsonPatList]),
    hpats .initialData (by simp [jsonPatList]), hpats .graphqlStart (by simp [jsonPatList])]

theorem extractJsonData_null (env : Env) (successUrl : String) (resp : Response) (s : String)
    (hbody : resp.body = .str s)
    (hnotapi : strIncludes successUrl "?__a=1" = false ∨
      strIncludes ((resp.headers.lookup "content-type").getD "") "application/json" = false)
    (hpats : ∀ p, p ∈ jsonPatList → env.matchRe p s = none)
    (hitems : strStarts (strTrim s) "\x7b\"items\":" = false) :
    extractJsonData env successUrl resp = (.null, "") := by
  unfold extractJsonData
  have hcond : ¬ (strIncludes successUrl "?__a=1" ∧
      strIncludes ((resp.headers.lookup "content-type").getD "") "application/json") := by
    rcases hnotapi with h | h <;> simp [h]
  dsimp only
  rw [if_neg hcond]
  dsimp only [truthy]
  rw [hbody]
  exact tryJsonPats_none env s hpats hitems

theorem firstDirectPat_none (env : Env) (s : String)
    (h1 : env.matchRe .dv1 s = none) (h2 : env.matchRe .dv2 s = none)
    (h3 : env.matchRe .dv3 s = none) (h4 : env.matchRe .dv4 s = none)
    (h5 : env.matchRe .dv5 s = none) :
    firstDirectPat env s = none := by
  simp [firstDirectPat, h1, h2, h3, h4, h5]

theorem individualFields_none (env : Env) (sc s : String)
    (h : env.matchRe .fVideoUrl s = none) :
    individualFields env sc s = none := by
  simp [individualFields, h]

theorem raw_ne_failed (sc : String) :
    ("raw-response-" ++ sc) ≠ ("failed-extraction-" ++ sc) := by
  intro h
  have hd := congrArg String.data h
  rw [show ("raw-response-" ++ sc).data = 'r' :: ("aw-response-" ++ sc).data from rfl,
      show ("failed-extraction-" ++ sc).data =
        'f' :: ("ailed-extraction-" ++ sc).data from rfl] at hd
  injection hd with h1
  exact absurd h1 (by decide)

/-- C5: for a fetched page (string body, not the machine-readable direct
branch) on which NO pattern matches — no structured document-extraction
pattern, not the individual-field video regex, and no direct-URL textual
pattern — resolve fails with NoMediaFound, and when a diagnostics sink is
configured it receives exactly one diagnostic write for that failure,
carrying the response headers and the 1000-character body prefix. -/
theorem c5_no_media_found (st : ApiState) (env : Env) (sc successUrl usedUA origUrl : String)
    (resp : Response) (s : String)
    (hbody : resp.body = .str s)
    (hnotapi : strIncludes successUrl "?__a=1" = false ∨
      strIncludes ((resp.headers.lookup "content-type").getD "") "application/json" = false)
    (hpats : ∀ p, env.matchRe p s = none)
    (hitems : strStarts (strTrim s) "\x7b\"items\":" = false) :
    (processResponse st env sc successUrl usedUA resp origUrl).1 = .error (.noMediaFound sc) ∧
    (processResponse st env sc successUrl usedUA resp origUrl).2.filter
        (fun w => w.1 == "failed-extraction-" ++ sc) =
      (if st.debug then
        [("failed-extraction-" ++ sc,
          DebugContent.failCtx successUrl usedUA resp.headers (strTake s 1000))] else []) := by
  have hjd := extractJsonData_null env successUrl resp s hbody hnotapi
    (fun p _ => hpats p) hitems
  have hind := individualFields_none env sc s (hpats .fVideoUrl)
  have hdir := firstDirectPat_none env s (hpats .dv1) (hpats .dv2) (hpats .dv3)
    (hpats .dv4) (hpats .dv5)
  unfold processResponse
  rw [hjd, hbody]
  dsimp only [truthy]
  rw [hind, hdir]
  by_cases hd : st.debug
  · simp [hd, bodyPreview, List.filter, beq_eq_false_iff_ne.mpr (raw_ne_failed sc)]
  · simp [hd, bodyPreview, List.filter]

def c5Env : Env :=
  ⟨fun i => if i = 0 then .resp ⟨200, [("content-type", "text/html")], .str "zzz"⟩ else .netErr,
   fun _ _ => none, fun _ => none⟩

def c5Resp : Response := ⟨200, [("content-type", "text/html")], .str "zzz"⟩

/-- Witness for C5: a body matching nothing fails with NoMediaFound and,
with diagnostics configured, yields exactly one failure write. -/
theorem c5_witness :
    (processResponse stDebug c5Env "SC" "https://su" "ua" c5Resp "orig").1 =
      .error (.noMediaFound "SC") ∧
    (processResponse stDebug c5Env "SC" "https://su" "ua" c5Resp "orig").2.filter
        (fun w => w.1 == "failed-extraction-" ++ "SC") =
      (if stDebug.debug then
        [("failed-extraction-" ++ "SC",
          DebugContent.failCtx "https://su" "ua" c5Resp.headers (strTake "zzz" 1000))] else []) :=
  c5_no_media_found stDebug c5Env "SC" "https://su" "ua" "orig" c5Resp "zzz" rfl
    (Or.inl (by decide)) (fun _ => rfl) (by decide)

def c6Env : Env :=
  ⟨fun i => if i = 0 then .resp ⟨200, [], .str "zzz"⟩ else .netErr,
   fun p s =>
     if s = "zzz" then
       (if p = .fVideoUrl then some "https://cdn/a.mp4"
        else if p = .fLike then some "10"
        else if p = .dv1 then some "https://cdn/a.mp4" else none)
     else none,
   fun _ => none⟩

/-- C6 counterexample: a page body on which a direct-URL textual pattern
matches but the individual-field metadata extraction (tried FIRST by the
code) also matches with like_count 10: resolve succeeds from the
individual-field path and returns likeCount 10, contradicting the claim's
all-counts-zero conclusion for such bodies. -/
theorem c6_counterexample :
    c6Env.matchRe .dv1 "zzz" = some "https://cdn/a.mp4" ∧
    (getMediaInfo stPlain c6Env reelUrl none).result =
      .ok ⟨"https://cdn/a.mp4", "ABC123xyz.mp4", "", "", "", 10, 0, 0, reelUrl⟩ ∧
    (10 : Int) ≠ 0 :=
  ⟨rfl, rfl, by decide⟩

/-- C6 amended: when no structured document-extraction pattern yields
parseable data AND the individual-field video regex does not match, but a
direct-URL textual pattern matches with a non-empty capture, resolve
succeeds from the direct-URL stub: the media URL is the de-escaped
matched URL, the file name is identifier.mp4, all counts are 0 and all
other string fields are empty. -/
theorem c6_direct_url_fallback (st : ApiState) (env : Env)
    (sc successUrl usedUA origUrl : String) (resp : Response) (s u : String)
    (hbody : resp.body = .str s)
    (hnotapi : strIncludes successUrl "?__a=1" = false ∨
      strIncludes ((resp.headers.lookup "content-type").getD "") "application/json" = false)
    (hjson : ∀ p, p ∈ jsonPatList → env.matchRe p s = none)
    (hitems : strStarts (strTrim s) "\x7b\"items\":" = false)
    (hind : env.matchRe .fVideoUrl s = none)
    (hdir : firstDirectPat env s = some u) (hu : u ≠ "") :
    (processResponse st env sc successUrl usedUA resp origUrl).1 =
      .ok ⟨deEscapeDirect u, sc ++ ".mp4", "", "", "", 0, 0, 0, origUrl⟩ := by
  have hjd := extractJsonData_null env successUrl resp s hbody hnotapi hjson hitems
  have hindn := individualFields_none env sc s hind
  have hne : deEscapeDirect u ≠ "" := deEscapeDirect_ne_empty u hu
  have hstub : directStub sc
      (.obj [("directVideoUrl", .str (deEscapeDirect u)), ("shortcode", .str sc)]) initState =
      .ok ⟨deEscapeDirect u, sc ++ ".mp4", "", "", "", 0, 0, 0⟩ := by
    unfold directStub
    simp [jget, lookupField, truthy, hne, jvalToStr, initState, bind_ok]
    rfl
  have hcasc : applyStructures sc
      (.obj [("directVideoUrl", .str (deEscapeDirect u)), ("shortcode", .str sc)])
      env (.str s) initState =
      .ok ⟨deEscapeDirect u, sc ++ ".mp4", "", "", "", 0, 0, 0⟩ := by
    unfold applyStructures
    rw [hstub, bind_ok,
      struct1_skip _ _ _ hne, bind_ok, struct2_skip _ _ _ hne, bind_ok,
      struct3_skip _ _ _ hne, bind_ok, struct4_skip _ _ _ hne, bind_ok,
      struct5_skip _ _ _ hne, bind_ok, struct6_skip _ _ _ _ hne]
    rfl
  unfold processResponse
  rw [hjd, hbody]
  simp [truthy, hindn, hdir, hcasc, hne]

def c6EnvB : Env :=
  ⟨fun i => if i = 0 then .resp ⟨200, [], .str "zzz"⟩ else .netErr,
   fun p s => if s = "zzz" ∧ p = .dv2 then some "https:\\/\\/cdn\\/b.mp4" else none,
   fun _ => none⟩

/-- Witness for C6 (amended): an escaped direct URL matched by pattern 2
is de-escaped and returned with defaulted metadata. -/
theorem c6_witness :
    (processResponse stPlain c6EnvB "ABC123xyz" "https://su" "ua"
        ⟨200, [], .str "zzz"⟩ reelUrl).1 =
      .ok ⟨deEscapeDirect "https:\\/\\/cdn\\/b.mp4", "ABC123xyz" ++ ".mp4",
        "", "", "", 0, 0, 0, reelUrl⟩ :=
  c6_direct_url_fallback stPlain c6EnvB "ABC123xyz" "https://su" "ua" reelUrl
    ⟨200, [], .str "zzz"⟩ "zzz" "https:\\/\\/cdn\\/b.mp4" rfl (Or.inl (by decide))
    (by intro p hp; fin_cases hp <;> rfl) (by decide) rfl rfl (by decide)

end IG
